import Mathlib

/-!
Verification of the Snowball_2025 repository core: the `SeedMessenger`
command handler (`/seed/setSeeds`) and the `DMXDetectorConstruction`
geometry/cut-parameter interface.

The first part shallowly embeds `SeedMessenger::SetNewValue` and its helper
`StoL` from the source header: tokenization of the argument string on
whitespace (`G4Tokenizer` with default delimiters), parsing of each token
with `istringstream >> long` semantics, the writes into the fixed
`G4long seeds[100]` buffer, and the single forwarding call
`G4Random::setTheSeeds(seeds)`.
-/

namespace Snowball

/-- Default `G4Tokenizer` delimiters: space, tab, newline. -/
def isWS (c : Char) : Bool := c == ' ' || c == '\t' || c == '\n'

/-- Accumulator-style whitespace tokenizer over the character list of the
argument: mirrors the loop `while(!(vl=next()).empty())`, which yields the
maximal non-empty runs of non-delimiter characters. -/
def tokenizeAux : List Char → List Char → List (List Char)
  | [], cur => if cur.isEmpty then [] else [cur.reverse]
  | c :: cs, cur =>
    if isWS c then
      if cur.isEmpty then tokenizeAux cs []
      else cur.reverse :: tokenizeAux cs []
    else tokenizeAux cs (c :: cur)

/-- The sequence of tokens `G4Tokenizer next(newValue)` produces before
returning the empty string. -/
def g4Tokenize (s : String) : List (List Char) := tokenizeAux s.data []

/-- Value of a list of decimal digit characters. -/
def digitsValAux (acc : Nat) : List Char → Nat
  | [] => acc
  | c :: cs => digitsValAux (acc * 10 + (c.toNat - 48)) cs

/-- Model of `SeedMessenger::StoL`: `istringstream is(t); is >> vl;` — skip leading
whitespace, read an optional sign and a maximal run of decimal digits; on
extraction failure (no digits) the stream value-initializes `vl` to 0
(C++11 `num_get` failure semantics). Numeric overflow of `long` is not
modelled; seeds are mathematical integers here. -/
def StoL (tok : List Char) : Int :=
  let cs := tok.dropWhile (fun c => isWS c)
  match cs with
  | '-' :: rest =>
    let ds := rest.takeWhile Char.isDigit
    if ds.isEmpty then 0 else -(digitsValAux 0 ds : Int)
  | '+' :: rest =>
    let ds := rest.takeWhile Char.isDigit
    if ds.isEmpty then 0 else (digitsValAux 0 ds : Int)
  | other =>
    let ds := other.takeWhile Char.isDigit
    if ds.isEmpty then 0 else (digitsValAux 0 ds : Int)

/-- The buffer writes `seeds[i] = StoL(vl)` of the parse loop, starting at
index `i`: one `(index, value)` pair per token, indices increasing by one. -/
def writesFrom (i : Nat) : List Int → List (Nat × Int)
  | [] => []
  | v :: vs => (i, v) :: writesFrom (i + 1) vs

/-- Observable outcome of one `SetNewValue` call on the seed command:
the writes performed on the `G4long seeds[100]` buffer (by index), the
sequence(s) forwarded to `G4Random::setTheSeeds` (one list entry per call),
and whether the `G4cerr` diagnostic was emitted. -/
structure SeedCmdOutcome where
  writes : List (Nat × Int)
  engineCalls : List (List Int)
  diagnostic : Bool
deriving Repr, DecidableEq

/-- Model of `SeedMessenger::SetNewValue` for `command == seedCmd`: tokenize the
argument, write `StoL` of each token at consecutive indices `0, 1, ...`;
if fewer than two tokens were parsed, print the diagnostic and stop;
otherwise write the sentinel `0` at the next index and call
`G4Random::setTheSeeds(seeds)` once, which hands the engine the parsed
integers followed by the sentinel. -/
def SetNewValue (newValue : String) : SeedCmdOutcome :=
  let toks := g4Tokenize newValue
  let vals := toks.map StoL
  let idx := toks.length
  if idx < 2 then
    { writes := writesFrom 0 vals
      engineCalls := []
      diagnostic := true }
  else
    { writes := writesFrom 0 vals ++ [(idx, 0)]
      engineCalls := [vals ++ [0]]
      diagnostic := false }

/-- Geant4 application states, as used by `AvailableForStates`. -/
inductive G4ApplicationState where
  | preInit | init | idle | geomClosed | eventProc | quit | abort
deriving Repr, DecidableEq

/-- The configuration of a `G4UIcommand` that the dispatcher consults:
its path, the application states in which it is accepted, whether it is
broadcast to worker threads, and its parameter metadata. -/
structure UIcommandConfig where
  path : String
  availableStates : List G4ApplicationState
  toBeBroadcasted : Bool
  parameterName : String
  parameterOmittable : Bool
  guidance : List String
deriving Repr, DecidableEq

/-- A fresh `G4UIcmdWithAString(path, messenger)`: by default a command is
available in every application state and is broadcast to worker threads. -/
def mkUIcmdWithAString (path : String) : UIcommandConfig :=
  { path := path
    availableStates :=
      [.preInit, .init, .idle, .geomClosed, .eventProc]
    toBeBroadcasted := true
    parameterName := ""
    parameterOmittable := true
    guidance := [] }

/-- Model of `G4UIcommand::SetGuidance`. -/
def setGuidance (c : UIcommandConfig) (g : String) : UIcommandConfig :=
  { c with guidance := c.guidance ++ [g] }

/-- Model of `G4UIcommand::SetParameterName(name, omittable)` for the single string
parameter. -/
def setParameterName (c : UIcommandConfig) (n : String) (om : Bool) :
    UIcommandConfig :=
  { c with parameterName := n, parameterOmittable := om }

/-- Model of `G4UIcommand::AvailableForStates(s1, s2, s3)`: replaces the available
state list. -/
def availableForStates (c : UIcommandConfig) (ss : List G4ApplicationState) :
    UIcommandConfig :=
  { c with availableStates := ss }

/-- Model of `G4UIcommand::SetToBeBroadcasted`. -/
def setToBeBroadcasted (c : UIcommandConfig) (b : Bool) : UIcommandConfig :=
  { c with toBeBroadcasted := b }

/-- The `seedCmd` configuration produced by the `SeedMessenger` constructor:
the exact sequence of calls of the constructor body applied to a fresh
`/seed/setSeeds` string command (the `G4MULTITHREADED` guidance line is
included; it does not affect dispatch). -/
def seedCmd : UIcommandConfig :=
  setToBeBroadcasted
    (availableForStates
      (setParameterName
        (setGuidance
          (setGuidance
            (setGuidance
              (setGuidance (mkUIcmdWithAString "/seed/setSeeds")
                "Initialize the random number generator with integer seed stream.")
              "Number of integers should be more than 1.")
            "Actual number of integers to be used depends on the individual random number engine.")
          "This command sets the seeds for the master thread.")
        "IntArray" false)
      [.preInit, .idle, .geomClosed])
    false

/-!
The implementation file of `DMXDetectorConstruction` is not part of the
sources; only its header (declarations of `Construct`,
`ConstructSDandField`, the four cut setters and the `G4Cache` sensitive
detectors) is. The geometry builder, the cut-parameter set and the
sensitive-region registry are therefore modelled from the specification.
-/

/-- Modelled from the spec: the five scalar thresholds of the
CutParameterSet held by the GeometryBuilder (missing
`DMXDetectorConstruction.cc`), each a non-negative physical quantity.
Physical quantities are modelled as exact rationals. -/
structure CutParameterSet where
  roomEnergyCut : ℚ
  energyCut : ℚ
  timeCut : ℚ
  roomTimeCut : ℚ
  maxStepSize : ℚ
deriving Repr, DecidableEq

/-- The four cut fields that have operator-facing setters. -/
inductive CutKind where
  | roomEnergy | energy | time | roomTime
deriving Repr, DecidableEq

/-- Read one cut field. -/
def getCut : CutKind → CutParameterSet → ℚ
  | .roomEnergy, p => p.roomEnergyCut
  | .energy, p => p.energyCut
  | .time, p => p.timeCut
  | .roomTime, p => p.roomTimeCut

/-- Validation failure of a cut setter. -/
inductive CutError where
  | invalidParameter
deriving Repr, DecidableEq

/-- Modelled from the spec: `setRoomEnergyCut(v)` of the missing
`DMXDetectorConstruction.cc` — validate `v >= 0`, fail with
`InvalidParameterError` otherwise, else store into the CutParameterSet
with no immediate geometry effect. Returns the (possibly updated)
parameter set and the validation outcome. -/
def SetRoomEnergyCut (p : CutParameterSet) (v : ℚ) :
    CutParameterSet × Option CutError :=
  if v < 0 then (p, some .invalidParameter)
  else ({ p with roomEnergyCut := v }, none)

/-- Modelled from the spec: `setEnergyCut(v)` of the missing
`DMXDetectorConstruction.cc` (same validation contract). -/
def SetEnergyCut (p : CutParameterSet) (v : ℚ) :
    CutParameterSet × Option CutError :=
  if v < 0 then (p, some .invalidParameter)
  else ({ p with energyCut := v }, none)

/-- Modelled from the spec: `setTimeCut(v)` of the missing
`DMXDetectorConstruction.cc` (same validation contract). -/
def SetTimeCut (p : CutParameterSet) (v : ℚ) :
    CutParameterSet × Option CutError :=
  if v < 0 then (p, some .invalidParameter)
  else ({ p with timeCut := v }, none)

/-- Modelled from the spec: `setRoomTimeCut(v)` of the missing
`DMXDetectorConstruction.cc` (same validation contract). -/
def SetRoomTimeCut (p : CutParameterSet) (v : ℚ) :
    CutParameterSet × Option CutError :=
  if v < 0 then (p, some .invalidParameter)
  else ({ p with roomTimeCut := v }, none)

/-- Dispatch a cut setter by field. -/
def applyCutSetter : CutKind → CutParameterSet → ℚ →
    CutParameterSet × Option CutError
  | .roomEnergy, p, v => SetRoomEnergyCut p v
  | .energy, p, v => SetEnergyCut p v
  | .time, p, v => SetTimeCut p v
  | .roomTime, p, v => SetRoomTimeCut p v

/-- Per-volume physics limits (`G4UserLimits`): minimum kinetic energy,
maximum time, maximum step size. -/
structure VolumeLimits where
  minEnergy : ℚ
  maxTime : ℚ
  maxStep : ℚ
deriving Repr, DecidableEq

/-- A node of the hierarchical volume tree: name, material reference,
optional limits, ordered children. -/
inductive Volume where
  | node (name : String) (material : String)
      (limits : Option VolumeLimits) (children : List Volume)
deriving Repr

/-- Name of a volume node. -/
def Volume.name : Volume → String
  | .node n _ _ _ => n

/-- Limits attached to a volume node. -/
def Volume.limits : Volume → Option VolumeLimits
  | .node _ _ l _ => l

mutual

/-- Depth-first search of the volume tree by name. -/
def findByName (n : String) : Volume → Option Volume
  | .node m mat l cs =>
    if m = n then some (.node m mat l cs) else findInList n cs

/-- Search `findByName` over a forest. -/
def findInList (n : String) : List Volume → Option Volume
  | [] => none
  | v :: vs =>
    match findByName n v with
    | some r => some r
    | none => findInList n vs

end

/-- Modelled from the spec: the volume tree built by the missing
`DMXDetectorConstruction::Construct` from the current CutParameterSet —
world enclosing the lab enclosure (room), which encloses the detector
internals (liquid xenon with the photocathode). The room volume's limits
carry the room energy and room time cuts, the detector volume's limits
carry the detector energy and time cuts; both use the max step size. -/
def buildTree (p : CutParameterSet) : Volume :=
  .node "world" "Air" none
    [ .node "lab" "ConcreteRoom"
        (some { minEnergy := p.roomEnergyCut
                maxTime := p.roomTimeCut
                maxStep := p.maxStepSize })
        [ .node "LXe" "LiquidXenon"
            (some { minEnergy := p.energyCut
                    maxTime := p.timeCut
                    maxStep := p.maxStepSize })
            [ .node "phcath" "PhotoCathode" none [] ] ] ]

/-- The volume whose limits hold a given cut field: the room cuts live on
the lab enclosure, the detector cuts on the liquid-xenon volume. -/
def cutVolumeName : CutKind → String
  | .roomEnergy => "lab"
  | .roomTime => "lab"
  | .energy => "LXe"
  | .time => "LXe"

/-- Query a cut value back from a constructed tree: locate the volume the
cut applies to and read the corresponding limit field. -/
def limitQuery (k : CutKind) (root : Volume) : Option ℚ :=
  match findByName (cutVolumeName k) root with
  | none => none
  | some v =>
    match v.limits with
    | none => none
    | some l =>
      match k with
      | .roomEnergy => some l.minEnergy
      | .energy => some l.minEnergy
      | .time => some l.maxTime
      | .roomTime => some l.maxTime

/-- GeometryBuilder state: the CutParameterSet it owns, plus the number of
`construct()` calls made so far (used to give each built tree a fresh
identity). -/
structure DetectorState where
  cuts : CutParameterSet
  nBuilds : Nat
deriving Repr, DecidableEq

/-- One tree produced by a `construct()` call: a fresh identity (each call
produces an independent tree) and the root volume. -/
structure BuiltTree where
  treeId : Nat
  root : Volume
deriving Repr

/-- Modelled from the spec: `construct()` of the missing
`DMXDetectorConstruction.cc` — builds a fresh, independent tree whose
limits reflect the CutParameterSet values current at construction time. -/
def construct (s : DetectorState) : DetectorState × BuiltTree :=
  ({ s with nBuilds := s.nBuilds + 1 },
   { treeId := s.nBuilds, root := buildTree s.cuts })

/-- Apply a cut setter to the GeometryBuilder state: only the
CutParameterSet is touched, already-built trees are not. -/
def setCutState (k : CutKind) (s : DetectorState) (v : ℚ) :
    DetectorState × Option CutError :=
  let (p, e) := applyCutSetter k s.cuts v
  ({ s with cuts := p }, e)

/-- Modelled from the spec: a SensitiveRegion instance — identity,
owning execution context, region tag, the volume it instruments, and its
per-event mutable accumulation state. -/
structure SensitiveRegion where
  instanceId : Nat
  owner : Nat
  regionTag : String
  target : String
  eventData : List Int
deriving Repr, DecidableEq

/-- Modelled from the spec: the SensitiveRegionRegistry — a per-context
map from `(contextId, regionTag)` to SensitiveRegion instance, plus a
fresh-instance counter. -/
structure Registry where
  entries : List ((Nat × String) × SensitiveRegion)
  nextId : Nat
deriving Repr, DecidableEq

/-- First registry entry for a `(contextId, regionTag)` key. -/
def findEntry (key : Nat × String) :
    List ((Nat × String) × SensitiveRegion) → Option SensitiveRegion
  | [] => none
  | (k, sr) :: es => if k = key then some sr else findEntry key es

/-- Modelled from the spec: `getOrCreate(contextId, regionTag,
targetVolume)` — return the instance already registered for
`(contextId, regionTag)` if any; otherwise construct a fresh
SensitiveRegion bound to `targetVolume`, register it for the context and
return it. -/
def getOrCreate (r : Registry) (ctx : Nat) (tag : String)
    (target : String) : Registry × SensitiveRegion :=
  match findEntry (ctx, tag) r.entries with
  | some sr => (r, sr)
  | none =>
    let sr : SensitiveRegion :=
      { instanceId := r.nextId
        owner := ctx
        regionTag := tag
        target := target
        eventData := [] }
    ({ entries := ((ctx, tag), sr) :: r.entries, nextId := r.nextId + 1 },
     sr)

/-- Mutate the per-event accumulation state of the sensitive region of one
`(contextId, regionTag)` key, leaving every other entry alone. -/
def recordHit (r : Registry) (ctx : Nat) (tag : String) (hit : Int) :
    Registry :=
  { r with
    entries := r.entries.map fun e =>
      if e.1 = (ctx, tag) then
        (e.1, { e.2 with eventData := e.2.eventData ++ [hit] })
      else e }

/-- Registry well-formedness: every cached instance is owned by the
context it is keyed under and carries its key's region tag. -/
def Registry.WF (r : Registry) : Prop :=
  ∀ e ∈ r.entries, e.2.owner = e.1.1 ∧ e.2.regionTag = e.1.2

instance (r : Registry) : Decidable r.WF := by
  unfold Registry.WF; infer_instance

/-! ## Helper lemmas -/

theorem mem_writesFrom :
    ∀ (vs : List Int) (i : Nat) (p : Nat × Int),
      p ∈ writesFrom i vs → p.1 < i + vs.length := by
  intro vs
  induction vs with
  | nil => intro i p hp; simp [writesFrom] at hp
  | cons v vs ih =>
    intro i p hp
    simp only [writesFrom, List.mem_cons] at hp
    rcases hp with hp | hp
    · subst hp; simp
    · have := ih (i + 1) p hp
      simp only [List.length_cons]
      omega

theorem SetNewValue_of_lt (arg : String)
    (h : (g4Tokenize arg).length < 2) :
    SetNewValue arg =
      { writes := writesFrom 0 ((g4Tokenize arg).map StoL)
        engineCalls := []
        diagnostic := true } := by
  unfold SetNewValue
  simp [h]

theorem SetNewValue_of_ge (arg : String)
    (h : 2 ≤ (g4Tokenize arg).length) :
    SetNewValue arg =
      { writes := writesFrom 0 ((g4Tokenize arg).map StoL) ++
          [((g4Tokenize arg).length, 0)]
        engineCalls := [(g4Tokenize arg).map StoL ++ [0]]
        diagnostic := false } := by
  unfold SetNewValue
  have h' : ¬ (g4Tokenize arg).length < 2 := by omega
  simp [h']

/-! ## Claims about the seed command -/

/-- C2: for every seed-command argument whose tokenization yields at least
two tokens, `SetNewValue` calls `G4Random::setTheSeeds` exactly once, with
the parsed integers in input order followed by the terminating sentinel 0
(the "12345 67890" instance is the witness below). -/
theorem seed_forwarding (arg : String)
    (h : 2 ≤ (g4Tokenize arg).length) :
    (SetNewValue arg).engineCalls = [(g4Tokenize arg).map StoL ++ [0]] := by
  rw [SetNewValue_of_ge arg h]

/-- Witness for C2: the argument `"12345 67890"` has two tokens and the
forwarded sequence is `[12345, 67890, 0]`. -/
theorem seed_forwarding_witness :
    (SetNewValue "12345 67890").engineCalls = [[12345, 67890, 0]] := by
  rw [seed_forwarding "12345 67890" (by decide)]
  decide

/-- C3: for every seed-command argument with fewer than two tokens the
command emits the diagnostic, never calls the random engine (its state is
unchanged), and is rejected exactly as the empty argument is. -/
theorem seed_rejection (arg : String)
    (h : (g4Tokenize arg).length < 2) :
    (SetNewValue arg).diagnostic = true ∧
    (SetNewValue arg).engineCalls = [] ∧
    (SetNewValue arg).diagnostic = (SetNewValue "").diagnostic ∧
    (SetNewValue arg).engineCalls = (SetNewValue "").engineCalls := by
  rw [SetNewValue_of_lt arg h]
  refine ⟨rfl, rfl, ?_, ?_⟩
  · show true = (SetNewValue "").diagnostic
    decide
  · show ([] : List (List Int)) = (SetNewValue "").engineCalls
    decide

/-- Witness for C3: the single-integer argument `"42"` is rejected with a
diagnostic and no engine call, identically to the empty argument. -/
theorem seed_rejection_witness :
    (SetNewValue "42").diagnostic = true ∧
    (SetNewValue "42").engineCalls = [] ∧
    (SetNewValue "42").diagnostic = (SetNewValue "").diagnostic ∧
    (SetNewValue "42").engineCalls = (SetNewValue "").engineCalls :=
  seed_rejection "42" (by decide)

/-- C9: the `/seed/setSeeds` command is registered as available exactly in
the pre-initialization, idle and geometry-closed states — in particular
not during event processing — and is marked not to be broadcast to worker
contexts. -/
theorem seed_command_registration :
    seedCmd.availableStates =
      [G4ApplicationState.preInit, G4ApplicationState.idle,
       G4ApplicationState.geomClosed] ∧
    seedCmd.toBeBroadcasted = false ∧
    G4ApplicationState.eventProc ∉ seedCmd.availableStates := by
  refine ⟨rfl, rfl, ?_⟩
  decide

/-- C10: `SetNewValue` rejects exactly when the argument has fewer than
two whitespace-separated tokens; token content is never validated — when
at least two tokens are present the forwarded call carries `StoL` of every
token, and `StoL` yields the leading integer of a token (`"12x7"` gives
12) or 0 when extraction fails (`"abc"` gives 0), so `"abc 5"` forwards
`[0, 5, 0]`. -/
theorem seed_reject_iff_two_tokens :
    (∀ arg : String,
      ((SetNewValue arg).diagnostic = true ↔ (g4Tokenize arg).length < 2) ∧
      (SetNewValue arg).engineCalls =
        (if 2 ≤ (g4Tokenize arg).length
         then [(g4Tokenize arg).map StoL ++ [0]]
         else [])) ∧
    (SetNewValue "abc 5").engineCalls = [[0, 5, 0]] ∧
    StoL ['1', '2', 'x', '7'] = 12 ∧
    StoL ['a', 'b', 'c'] = 0 := by
  refine ⟨fun arg => ?_, by decide, by decide, by decide⟩
  by_cases h : (g4Tokenize arg).length < 2
  · rw [SetNewValue_of_lt arg h]
    have h' : ¬ 2 ≤ (g4Tokenize arg).length := by omega
    simp [h, h']
  · have h2 : 2 ≤ (g4Tokenize arg).length := by omega
    rw [SetNewValue_of_ge arg h2]
    simp [h, h2]

/-- A seed argument of exactly 100 integer tokens: `"1 1 ... 1"`. -/
def overflowArg : String := String.intercalate " " (List.replicate 100 "1")

set_option maxRecDepth 40000 in
/-- C1 counterexample: the parse loop has no bounds check, so the claim
that every write stays inside the 100-element `seeds` buffer is false —
for the 100-token argument the sentinel is written at index 100, one past
the end of `G4long seeds[100]`. -/
theorem seed_buffer_overflow_counterexample :
    ¬ (∀ arg : String, ∀ p ∈ (SetNewValue arg).writes, p.1 < 100) := by
  intro h
  have hmem : ((100 : Nat), (0 : Int)) ∈ (SetNewValue overflowArg).writes := by
    decide
  have := h overflowArg (100, 0) hmem
  omega

/-- C1 amended: provided the argument yields at most 99 tokens, every
write of the parse loop and the sentinel write stay inside the 100-element
`seeds` buffer. -/
theorem seed_buffer_safety (arg : String)
    (h : (g4Tokenize arg).length ≤ 99) :
    ∀ p ∈ (SetNewValue arg).writes, p.1 < 100 := by
  intro p hp
  by_cases h2 : (g4Tokenize arg).length < 2
  · rw [SetNewValue_of_lt arg h2] at hp
    have := mem_writesFrom _ 0 p hp
    simp only [List.length_map] at this
    omega
  · have h2' : 2 ≤ (g4Tokenize arg).length := by omega
    rw [SetNewValue_of_ge arg h2'] at hp
    simp only [List.mem_append, List.mem_singleton] at hp
    rcases hp with hp | hp
    · have := mem_writesFrom _ 0 p hp
      simp only [List.length_map] at this
      omega
    · subst hp
      simpa using by omega

/-- Witness for the amended C1: the two-token argument `"12345 67890"`
satisfies the token bound and its first write lands inside the buffer. -/
theorem seed_buffer_safety_witness :
    ((0 : Nat), (12345 : Int)).1 < 100 :=
  seed_buffer_safety "12345 67890" (by decide) (0, 12345) (by decide)

/-! ## Helper lemmas for the cut setters and the geometry builder -/

theorem applyCutSetter_neg (k : CutKind) (p : CutParameterSet) (v : ℚ)
    (h : v < 0) :
    applyCutSetter k p v = (p, some .invalidParameter) := by
  cases k <;>
    simp [applyCutSetter, SetRoomEnergyCut, SetEnergyCut, SetTimeCut,
      SetRoomTimeCut, h]

theorem applyCutSetter_nonneg (k : CutKind) (p : CutParameterSet) (v : ℚ)
    (h : 0 ≤ v) :
    (applyCutSetter k p v).2 = none ∧
    getCut k (applyCutSetter k p v).1 = v := by
  have h' : ¬ v < 0 := not_lt.2 h
  cases k <;>
    simp [applyCutSetter, SetRoomEnergyCut, SetEnergyCut, SetTimeCut,
      SetRoomTimeCut, getCut, h']

theorem limitQuery_buildTree (k : CutKind) (p : CutParameterSet) :
    limitQuery k (buildTree p) = some (getCut k p) := by
  cases k <;>
    simp [limitQuery, buildTree, cutVolumeName, findByName, findInList,
      Volume.limits, getCut]

/-- A convenient concrete parameter set for witnesses. -/
def cuts0 : CutParameterSet :=
  { roomEnergyCut := 0, energyCut := 0, timeCut := 0, roomTimeCut := 0,
    maxStepSize := 0 }

/-! ## Claims about the geometry builder -/

/-- C4: every cut setter rejects a negative value with
`InvalidParameterError` and leaves the stored value unchanged, and stores
any non-negative value successfully. -/
theorem cut_setter_validation (k : CutKind) (p : CutParameterSet) (v : ℚ) :
    (v < 0 → applyCutSetter k p v = (p, some .invalidParameter)) ∧
    (0 ≤ v →
      (applyCutSetter k p v).2 = none ∧
      getCut k (applyCutSetter k p v).1 = v) :=
  ⟨fun h => applyCutSetter_neg k p v h,
   fun h => applyCutSetter_nonneg k p v h⟩

/-- Witness for C4: `SetRoomEnergyCut` rejects −1 leaving the parameters
unchanged, and `SetEnergyCut` stores 5. -/
theorem cut_setter_validation_witness :
    applyCutSetter .roomEnergy cuts0 (-1) =
      (cuts0, some .invalidParameter) ∧
    (applyCutSetter .energy cuts0 5).2 = none ∧
    getCut .energy (applyCutSetter .energy cuts0 5).1 = 5 :=
  ⟨(cut_setter_validation .roomEnergy cuts0 (-1)).1 (by norm_num),
   (cut_setter_validation .energy cuts0 5).2 (by norm_num)⟩

/-- C5: a `construct()` made before a cut setter reflects the previously
stored value in the corresponding volume's limit, and only a `construct()`
made after the setter reflects the new value. -/
theorem cut_setter_deferred (k : CutKind) (s : DetectorState) (v : ℚ)
    (h : 0 ≤ v) :
    limitQuery k (construct s).2.root = some (getCut k s.cuts) ∧
    limitQuery k (construct (setCutState k s v).1).2.root = some v := by
  constructor
  · simpa [construct] using limitQuery_buildTree k s.cuts
  · have hstore := (applyCutSetter_nonneg k s.cuts v h).2
    have : (setCutState k s v).1.cuts = (applyCutSetter k s.cuts v).1 := by
      simp [setCutState]
    rw [show (construct (setCutState k s v).1).2.root =
        buildTree (setCutState k s v).1.cuts from rfl, this,
      limitQuery_buildTree, hstore]

/-- Witness for C5: from the all-zero parameter set, the tree built before
`SetTimeCut 7` carries time cut 0 and the tree built after carries 7. -/
theorem cut_setter_deferred_witness :
    limitQuery .time (construct ⟨cuts0, 0⟩).2.root = some 0 ∧
    limitQuery .time
      (construct (setCutState .time ⟨cuts0, 0⟩ 7).1).2.root = some 7 :=
  cut_setter_deferred .time ⟨cuts0, 0⟩ 7 (by norm_num)

/-- C6: round-trip — any non-negative cut value stored through its setter
is the value read back from the corresponding volume's limit in the tree
produced by the next `construct()` (exact equality in the rational
model). -/
theorem cut_roundtrip (k : CutKind) (s : DetectorState) (v : ℚ)
    (h : 0 ≤ v) :
    limitQuery k (construct (setCutState k s v).1).2.root = some v := by
  have hstore := (applyCutSetter_nonneg k s.cuts v h).2
  have hc : (setCutState k s v).1.cuts = (applyCutSetter k s.cuts v).1 := by
    simp [setCutState]
  rw [show (construct (setCutState k s v).1).2.root =
      buildTree (setCutState k s v).1.cuts from rfl, hc,
    limitQuery_buildTree, hstore]

/-- Witness for C6: storing room time cut 3/2 and constructing yields
limit 3/2 back. -/
theorem cut_roundtrip_witness :
    limitQuery .roomTime
      (construct (setCutState .roomTime ⟨cuts0, 0⟩ (3 / 2)).1).2.root =
      some (3 / 2) :=
  cut_roundtrip .roomTime ⟨cuts0, 0⟩ (3 / 2) (by norm_num)

/-- C7: two successive `construct()` calls with unchanged CutParameterSet
produce volume trees with identical structure and identical limit values
(the trees are fresh — their identities differ — but their roots are
equal). -/
theorem construct_deterministic (s : DetectorState) :
    (construct ((construct s).1)).2.root = (construct s).2.root ∧
    (construct ((construct s).1)).2.treeId ≠ (construct s).2.treeId := by
  constructor
  · rfl
  · simp [construct]

/-! ## Helper lemmas for the sensitive-region registry -/

theorem findEntry_some_mem (key : Nat × String) (sr : SensitiveRegion) :
    ∀ es : List ((Nat × String) × SensitiveRegion),
      findEntry key es = some sr → (key, sr) ∈ es := by
  intro es
  induction es with
  | nil => intro h; simp [findEntry] at h
  | cons e es ih =>
    obtain ⟨k, v⟩ := e
    intro h
    simp only [findEntry] at h
    by_cases hk : k = key
    · rw [if_pos hk] at h
      have hv : v = sr := Option.some.inj h
      rw [← hk, ← hv]
      exact List.mem_cons_self _ _
    · rw [if_neg hk] at h
      exact List.mem_cons_of_mem _ (ih h)

theorem getOrCreate_not_cached (r : Registry) (c : Nat) (t tgt : String)
    (h : findEntry (c, t) r.entries = none) :
    getOrCreate r c t tgt =
      ({ entries := ((c, t), ⟨r.nextId, c, t, tgt, []⟩) :: r.entries,
         nextId := r.nextId + 1 },
       ⟨r.nextId, c, t, tgt, []⟩) := by
  unfold getOrCreate
  rw [h]

theorem getOrCreate_cached (r : Registry) (c : Nat) (t tgt : String)
    (sr : SensitiveRegion)
    (h : findEntry (c, t) r.entries = some sr) :
    getOrCreate r c t tgt = (r, sr) := by
  unfold getOrCreate
  rw [h]

theorem getOrCreate_owner (r : Registry) (hwf : r.WF) (c : Nat)
    (t tgt : String) : (getOrCreate r c t tgt).2.owner = c := by
  unfold getOrCreate
  cases hfind : findEntry (c, t) r.entries with
  | none => rfl
  | some sr =>
    have hmem := findEntry_some_mem (c, t) sr r.entries hfind
    exact (hwf _ hmem).1

/-- C8: starting from any well-formed registry in which two distinct
contexts have not yet cached the region tag, `getOrCreate` in the first
context and then in the second returns two distinct SensitiveRegion
instances bound to the same target volume and owned by their respective
contexts; `getOrCreate` always returns an instance owned by the asking
context; a repeated `getOrCreate` in the first context returns the cached
instance with the registry unchanged; and recording a hit through the
first context's region leaves the second context's cached instance
untouched. -/
theorem sensitive_region_isolation (r : Registry) (c1 c2 : Nat)
    (tag tgt : String) (hwf : r.WF) (hne : c1 ≠ c2)
    (h1 : findEntry (c1, tag) r.entries = none)
    (h2 : findEntry (c2, tag) r.entries = none) :
    (getOrCreate r c1 tag tgt).2 ≠
      (getOrCreate (getOrCreate r c1 tag tgt).1 c2 tag tgt).2 ∧
    (getOrCreate r c1 tag tgt).2.target = tgt ∧
    (getOrCreate (getOrCreate r c1 tag tgt).1 c2 tag tgt).2.target = tgt ∧
    (getOrCreate r c1 tag tgt).2.owner = c1 ∧
    (getOrCreate (getOrCreate r c1 tag tgt).1 c2 tag tgt).2.owner = c2 ∧
    (∀ c : Nat, ∀ t : String, (getOrCreate r c t tgt).2.owner = c) ∧
    getOrCreate
        (getOrCreate (getOrCreate r c1 tag tgt).1 c2 tag tgt).1 c1 tag tgt =
      ((getOrCreate (getOrCreate r c1 tag tgt).1 c2 tag tgt).1,
       (getOrCreate r c1 tag tgt).2) ∧
    (∀ hit : Int,
      findEntry (c2, tag)
          (recordHit
            (getOrCreate (getOrCreate r c1 tag tgt).1 c2 tag tgt).1
            c1 tag hit).entries =
        findEntry (c2, tag)
          (getOrCreate (getOrCreate r c1 tag tgt).1 c2 tag tgt).1.entries) := by
  have hkey : ((c1, tag) : Nat × String) ≠ (c2, tag) := by
    simp [Prod.ext_iff, hne]
  have hkey' : ((c2, tag) : Nat × String) ≠ (c1, tag) := Ne.symm hkey
  have e1 : getOrCreate r c1 tag tgt =
      ({ entries := ((c1, tag),
            ⟨r.nextId, c1, tag, tgt, []⟩) :: r.entries,
         nextId := r.nextId + 1 },
       ⟨r.nextId, c1, tag, tgt, []⟩) :=
    getOrCreate_not_cached r c1 tag tgt h1
  have hfind2 : findEntry (c2, tag)
      (({ entries := ((c1, tag),
            ⟨r.nextId, c1, tag, tgt, []⟩) :: r.entries,
          nextId := r.nextId + 1 } : Registry)).entries = none := by
    simp only [findEntry, if_neg hkey]
    exact h2
  have e2 : getOrCreate (getOrCreate r c1 tag tgt).1 c2 tag tgt =
      ({ entries := ((c2, tag),
            ⟨r.nextId + 1, c2, tag, tgt, []⟩) ::
            ((c1, tag), ⟨r.nextId, c1, tag, tgt, []⟩) :: r.entries,
         nextId := r.nextId + 2 },
       ⟨r.nextId + 1, c2, tag, tgt, []⟩) := by
    rw [e1]
    exact getOrCreate_not_cached _ c2 tag tgt hfind2
  have hcached : findEntry (c1, tag)
      (({ entries := ((c2, tag),
            ⟨r.nextId + 1, c2, tag, tgt, []⟩) ::
            ((c1, tag), ⟨r.nextId, c1, tag, tgt, []⟩) :: r.entries,
          nextId := r.nextId + 2 } : Registry)).entries =
      some ⟨r.nextId, c1, tag, tgt, []⟩ := by
    simp [findEntry, hkey']
  refine ⟨?_, ?_, ?_, ?_, ?_, ?_, ?_, ?_⟩
  · rw [e2, e1]
    intro hcontra
    have hid : r.nextId = r.nextId + 1 :=
      congrArg SensitiveRegion.instanceId hcontra
    omega
  · rw [e1]
  · rw [e2]
  · rw [e1]
  · rw [e2]
  · intro c t
    exact getOrCreate_owner r hwf c t tgt
  · rw [e2, e1]
    exact getOrCreate_cached _ c1 tag tgt _ hcached
  · intro hit
    rw [e2]
    simp only [recordHit, List.map_cons, if_neg hkey']
    simp [findEntry, hkey']

/-- Witness for C8: from the empty registry, contexts 0 and 1 asking for
the `"LXeSD"` region of the `"LXe"` volume receive distinct instances. -/
theorem sensitive_region_isolation_witness :
    (getOrCreate ⟨[], 0⟩ 0 "LXeSD" "LXe").2 ≠
      (getOrCreate (getOrCreate ⟨[], 0⟩ 0 "LXeSD" "LXe").1
        1 "LXeSD" "LXe").2 :=
  (sensitive_region_isolation ⟨[], 0⟩ 0 1 "LXeSD" "LXe" (by decide)
    (by decide) rfl rfl).1

end Snowball
